import Mathlib

/-!
Shallow embedding of the caching and error-classification core of the
Financial-Analysis gateway:

* `src/app/services/storage.py` — `SQLiteCache` (persistent cache);
* `src/app/services/alphavantage_service.py` — `SimpleCache` (volatile cache),
  the `APIError` exception taxonomy, `AlphaVantageClient._build_cache_key`
  and `AlphaVantageClient._make_request`.

Python dictionaries are modelled as association lists with unique keys;
`json.dumps(…, sort_keys=True)` and `sorted(params.items())` are modelled with
an executable lexicographic order on strings; wall-clock and monotonic time are
explicit `Int` parameters; the network and the possibility of a storage write
failure are an explicit environment.
-/

/-- Byte-wise (code-point-wise) lexicographic `≤` on lists of characters.
Models the string comparison Python uses in `sorted` and `json.dumps`
with `sort_keys=True`. -/
def charListLE : List Char → List Char → Bool
  | [], _ => true
  | _ :: _, [] => false
  | a :: as, b :: bs =>
    a.toNat < b.toNat || (a.toNat == b.toNat && charListLE as bs)

/-- Lexicographic `≤` on strings, via their character lists. -/
def strLE (a b : String) : Bool := charListLE a.data b.data

/-- Order on `(key, value)` pairs by key, used to model Python's
`sorted(params.items())` and the key ordering of `json.dumps(sort_keys=True)`
(for maps, whose keys are unique, ordering by key determines the result). -/
def keyRel (a b : String × String) : Prop := strLE a.1 b.1 = true

instance : DecidableRel keyRel := fun a b => instDecidableEqBool (strLE a.1 b.1) true

/-- First-match lookup in an association list; models `d.get(k)` / `d[k]` /
`k in d` on a Python dict (whose keys are unique). -/
def lookupAssoc {α : Type} : List (String × α) → String → Option α
  | [], _ => none
  | kv :: rest, k => if kv.1 = k then some kv.2 else lookupAssoc rest k

/-- Models Python dict assignment `d[k] = v`: replaces the value in place when
the key is present, appends at the end (insertion order) otherwise. -/
def assocSet {α : Type} (s : List (String × α)) (k : String) (v : α) :
    List (String × α) :=
  if s.any (fun kv => kv.1 == k) then
    s.map (fun kv => if kv.1 == k then (k, v) else kv)
  else
    s ++ [(k, v)]

/-- Models Python `d.pop(k, None)`'s effect on the dict: drops the entry. -/
def assocErase {α : Type} (s : List (String × α)) (k : String) :
    List (String × α) :=
  s.filter (fun kv => !(kv.1 == k))

/-- Request parameters / decoded JSON object: a Python dict from string keys
to string values (the value granularity the core ever inspects). -/
abbrev Params := List (String × String)

/-- A decoded JSON object body. -/
abbrev JsonObj := List (String × String)

/-- One entry of `SimpleCache._store`: the value plus the `time.monotonic()`
instant recorded by `SimpleCache.set` (alphavantage_service.py line 91). -/
structure VolatileEntry where
  value : JsonObj
  ts : Int
deriving DecidableEq, Repr

/-- `SimpleCache._store`: a dict keyed by the sorted parameter tuple built in
`_make_request` (alphavantage_service.py line 296). -/
abbrev VolatileStore := List (Params × VolatileEntry)

/-- First-match lookup keyed by a parameter tuple (dict with tuple keys). -/
def lookupVol : VolatileStore → Params → Option VolatileEntry
  | [], _ => none
  | kv :: rest, k => if kv.1 = k then some kv.2 else lookupVol rest k

/-- Dict assignment for the volatile store. -/
def volSet (s : VolatileStore) (k : Params) (v : VolatileEntry) : VolatileStore :=
  if s.any (fun kv => kv.1 == k) then
    s.map (fun kv => if kv.1 == k then (k, v) else kv)
  else
    s ++ [(k, v)]

/-- `d.pop(key, None)` for the volatile store. -/
def volErase (s : VolatileStore) (k : Params) : VolatileStore :=
  s.filter (fun kv => !(kv.1 == k))

/-- `SimpleCache.get` (alphavantage_service.py lines 51-73): returns the value
when present and not expired; an entry older than `ttl` is evicted as a side
effect of the read and reported as a miss. Returns the (possibly updated)
store alongside the result. -/
def simpleCacheGet (ttl : Int) (store : VolatileStore) (now : Int) (key : Params) :
    Option JsonObj × VolatileStore :=
  match lookupVol store key with
  | none => (none, store)
  | some e =>
    if now - e.ts > ttl then (none, volErase store key)
    else (some e.value, store)

/-- `SimpleCache.set` (alphavantage_service.py lines 75-91): unconditional
upsert stamped with the current monotonic time. -/
def simpleCacheSet (store : VolatileStore) (key : Params) (v : JsonObj) (now : Int) :
    VolatileStore :=
  volSet store key ⟨v, now⟩

/-- One row of the `cache_entries` table (storage.py lines 67-73). The payload
is kept structured; `json.dumps`/`json.loads` round-trip it unchanged. -/
structure CacheRow where
  endpoint : Option String
  payload : JsonObj
  fetched_at : Int
  ttl_seconds : Int
deriving DecidableEq, Repr

/-- The `cache_entries` table: rows keyed by the unique `cache_key` column. -/
abbrev PersistentStore := List (String × CacheRow)

/-- The dict returned by `SQLiteCache.get` on a hit (storage.py lines 160-165). -/
structure CacheHit where
  payload : JsonObj
  fetched_at : Int
  ttl_seconds : Int
  stale : Bool
deriving DecidableEq, Repr

/-- `SQLiteCache.save` (storage.py lines 94-122): `INSERT OR REPLACE` of the
row keyed by `cache_key`, stamped `fetched_at = now`, with the explicit TTL or
the instance default when none is given. -/
def sqliteSave (store : PersistentStore) (now : Int) (cache_key : String)
    (payload : JsonObj) (ttl_seconds : Option Int) (endpoint : Option String)
    (default_ttl : Int) : PersistentStore :=
  let ttl := ttl_seconds.getD default_ttl
  assocSet store cache_key ⟨endpoint, payload, now, ttl⟩

/-- `SQLiteCache.get` (storage.py lines 124-165): `none` when no row exists;
staleness is `now - fetched_at > ttl_seconds`, computed at read time; a stale
row is reported only when `allow_stale` is true. -/
def sqliteGet (store : PersistentStore) (now : Int) (cache_key : String)
    (allow_stale : Bool) : Option CacheHit :=
  match lookupAssoc store cache_key with
  | none => none
  | some row =>
    let is_stale : Bool := now - row.fetched_at > row.ttl_seconds
    if is_stale && !allow_stale then none
    else some ⟨row.payload, row.fetched_at, row.ttl_seconds, is_stale⟩

/-- `json.dumps` of a string-valued object with keys already in order. -/
def jsonDumps (l : List (String × String)) : String :=
  "\x7b" ++
    String.intercalate ", "
      (l.map (fun kv => "\"" ++ kv.1 ++ "\": \"" ++ kv.2 ++ "\"")) ++
  "\x7d"

/-- `sorted(params.items())` (alphavantage_service.py line 296): the parameter
pairs in ascending key order; for a dict the keys are unique, so ordering by
key alone reproduces Python's tuple ordering. -/
def sortParams (params : Params) : Params := List.insertionSort keyRel params

/-- `AlphaVantageClient._build_cache_key` (alphavantage_service.py lines
232-249): drop the `apikey` entry, then `f"{function}:{json.dumps(safe_params,
sort_keys=True)}"`. -/
def buildCacheKey (function : String) (params : Params) : String :=
  function ++ ":" ++ jsonDumps (sortParams (params.filter (fun kv => !(kv.1 == "apikey"))))

/-- The exceptions `_make_request` can raise. The first five are the
`APIError` hierarchy of alphavantage_service.py lines 94-181 (`api` is the
base `APIError` used as the generic failure); `jsonDecode` models the
`json.JSONDecodeError` that `response.json()` raises on a malformed 2xx body
(not an `APIError`); `storage` models the `sqlite3.Error`/`TypeError` a
failing `SQLiteCache.save` propagates (also not an `APIError`). -/
inductive RequestError where
  | rateLimit (msg : String)
  | invalidSymbol (msg : String)
  | auth (msg : String)
  | upstream (msg : String)
  | api (msg : String)
  | jsonDecode (raw : String)
  | storage
deriving DecidableEq, Repr

/-- Whether an error belongs to the typed failure taxonomy the specification
names (`RateLimited`, `InvalidInput`, `AuthFailed`, `UpstreamUnavailable`,
`Generic`): exactly the `APIError` family of the source. -/
def isTypedFailure : RequestError → Bool
  | .rateLimit _ => true
  | .invalidSymbol _ => true
  | .auth _ => true
  | .upstream _ => true
  | .api _ => true
  | .jsonDecode _ => false
  | .storage => false

/-- The body of an upstream HTTP response: a decoded JSON object, or raw text
that `response.json()` fails to decode. -/
inductive ResponseBody where
  | json (fields : JsonObj)
  | malformed (raw : String)
deriving DecidableEq, Repr

/-- The outcome of the outbound `httpx` call: a transport-level failure
(`httpx.RequestError`) with its message, or a response with a status code and
a body. -/
inductive UpstreamOutcome where
  | transportError (detail : String)
  | httpResponse (status : Nat) (body : ResponseBody)
deriving DecidableEq, Repr

/-- Result of classifying one upstream outcome. -/
inductive ClassifyResult where
  | success (body : JsonObj)
  | failure (e : RequestError)
deriving DecidableEq, Repr

/-- Response classification, exactly the decision logic of
`AlphaVantageClient._make_request` (alphavantage_service.py lines 311-364):
transport errors (line 320), `raise_for_status` status mapping (lines
328-334), JSON decoding (line 336), then the marker-field checks `"Note"`,
`"Error Message"`, `"Information"` and the empty-body check, in source order
(lines 338-364). -/
def classify : UpstreamOutcome → ClassifyResult
  | .transportError detail => .failure (.api ("Network error: " ++ detail))
  | .httpResponse status body =>
    if status < 200 ∨ 300 ≤ status then
      if status = 401 ∨ status = 403 then
        .failure (.auth "Authentication failed with Alpha Vantage.")
      else if status = 429 ∨ status = 500 ∨ status = 502 ∨ status = 503 ∨ status = 504 then
        .failure (.upstream ("Upstream error from Alpha Vantage (status " ++ toString status ++ ")."))
      else
        .failure (.api ("API request failed with status code " ++ toString status))
    else
      match body with
      | .malformed raw => .failure (.jsonDecode raw)
      | .json fields =>
        match lookupAssoc fields "Note" with
        | some note => .failure (.rateLimit note)
        | none =>
          match lookupAssoc fields "Error Message" with
          | some msg => .failure (.invalidSymbol msg)
          | none =>
            match lookupAssoc fields "Information" with
            | some info => .failure (.api info)
            | none =>
              if fields.isEmpty then
                .failure (.api "Empty response from Alpha Vantage.")
              else
                .success fields

/-- The mutable state of an `AlphaVantageClient` (alphavantage_service.py
lines 203-230): the API key, the `SimpleCache(ttl_seconds=120)` and the
`SQLiteCache` with its default TTL of 600. -/
structure ClientState where
  apiKey : String
  volatileTTL : Int
  volatile : VolatileStore
  persistent : PersistentStore
  defaultTTL : Int
deriving DecidableEq, Repr

/-- The environment of a single `_make_request` call: what the network would
return if called, whether a persistent save would succeed (models
`sqlite3`/serialization I/O failures), the `time.monotonic()` reading used by
the volatile cache and the `time.time()` reading used by the persistent one. -/
structure Env where
  outcome : UpstreamOutcome
  saveOk : Bool
  nowMono : Int
  nowWall : Int
deriving DecidableEq, Repr

/-- What `_make_request` hands back to the caller: the returned payload or the
raised exception. -/
inductive FetchResult where
  | ok (data : JsonObj)
  | error (e : RequestError)
deriving DecidableEq, Repr

/-- Observable result of one `_make_request` call: what was returned or
raised, both cache states afterwards, and whether the network was touched. -/
structure StepResult where
  result : FetchResult
  volatile : VolatileStore
  persistent : PersistentStore
  networkCalled : Bool
deriving DecidableEq, Repr

/-- `params["apikey"] = self.api_key` (alphavantage_service.py line 294). -/
def requestParams (st : ClientState) (params₀ : Params) : Params :=
  assocSet params₀ "apikey" st.apiKey

/-- `function = params.get("function", "UNKNOWN")` (line 295). -/
def requestFunction (st : ClientState) (params₀ : Params) : String :=
  (lookupAssoc (requestParams st params₀) "function").getD "UNKNOWN"

/-- `cache_key = tuple(sorted(params.items()))` (line 296): the volatile-cache
key, computed from the parameters after the API key was attached. -/
def volatileKey (st : ClientState) (params₀ : Params) : Params :=
  sortParams (requestParams st params₀)

/-- The persistent-cache key `_make_request` uses (lines 301 and 368), via
`_build_cache_key` on the same credential-carrying parameter dict. -/
def requestDbKey (st : ClientState) (params₀ : Params) : String :=
  buildCacheKey (requestFunction st params₀) (requestParams st params₀)

/-- `AlphaVantageClient._make_request` (alphavantage_service.py lines
274-376): attach the credential; check the volatile cache; check the
persistent cache fresh-only (via `_get_cached`, returning `cached["payload"]`
on a hit without touching the volatile cache); otherwise perform the network
call, classify its outcome via `classify`, and on success write the volatile
cache and—when a TTL was supplied—save to the persistent cache, which may
itself fail and raise after the volatile write already happened. -/
def makeRequest (st : ClientState) (env : Env) (params₀ : Params)
    (ttl_seconds : Option Int) : StepResult :=
  let cache_key := volatileKey st params₀
  let volRes := simpleCacheGet st.volatileTTL st.volatile env.nowMono cache_key
  match volRes.1 with
  | some cached => ⟨.ok cached, volRes.2, st.persistent, false⟩
  | none =>
    match sqliteGet st.persistent env.nowWall (requestDbKey st params₀) false with
    | some hit => ⟨.ok hit.payload, volRes.2, st.persistent, false⟩
    | none =>
      match classify env.outcome with
      | .failure e => ⟨.error e, volRes.2, st.persistent, true⟩
      | .success data =>
        let vol' := simpleCacheSet volRes.2 cache_key data env.nowMono
        match ttl_seconds with
        | none => ⟨.ok data, vol', st.persistent, true⟩
        | some ttl =>
          if env.saveOk then
            ⟨.ok data, vol',
              sqliteSave st.persistent env.nowWall (requestDbKey st params₀)
                data (some ttl) (some (requestFunction st params₀)) st.defaultTTL,
              true⟩
          else
            ⟨.error .storage, vol', st.persistent, true⟩

/-- Specification-side predicate: the classification result lies in the
taxonomy the specification states — a success payload or one of the typed
failures (`RateLimited`, `InvalidInput`, `AuthFailed`, `UpstreamUnavailable`,
`Generic`). -/
def inTaxonomy : ClassifyResult → Bool
  | .success _ => true
  | .failure e => isTypedFailure e

/-- Outcomes on which `response.json()` is never reached or succeeds: a
transport failure, a non-2xx status (where `raise_for_status` fires first),
or a 2xx response whose body decodes as JSON. -/
def decodedOk : UpstreamOutcome → Prop
  | .httpResponse s (.malformed _) => s < 200 ∨ 300 ≤ s
  | _ => True

/-- Characters with equal code points are equal. -/
theorem char_eq_of_toNat_eq {a b : Char} (h : a.toNat = b.toNat) : a = b :=
  Char.ext (UInt32.ext h)

/-- `charListLE` is total. -/
theorem charListLE_total : ∀ as bs : List Char,
    charListLE as bs = true ∨ charListLE bs as = true := by
  intro as
  induction as with
  | nil => intro bs; left; simp [charListLE]
  | cons a as ih =>
    intro bs
    cases bs with
    | nil => right; simp [charListLE]
    | cons b bs =>
      simp only [charListLE, Bool.or_eq_true, Bool.and_eq_true, decide_eq_true_eq,
        beq_iff_eq]
      rcases Nat.lt_trichotomy a.toNat b.toNat with hlt | heq | hgt
      · left; left; exact hlt
      · rcases ih bs with h | h
        · left; right; exact ⟨heq, h⟩
        · right; right; exact ⟨heq.symm, h⟩
      · right; left; exact hgt

/-- `charListLE` is transitive. -/
theorem charListLE_trans : ∀ as bs cs : List Char,
    charListLE as bs = true → charListLE bs cs = true → charListLE as cs = true := by
  intro as
  induction as with
  | nil => intro bs cs _ _; simp [charListLE]
  | cons a as ih =>
    intro bs cs hab hbc
    cases bs with
    | nil => simp [charListLE] at hab
    | cons b bs =>
      cases cs with
      | nil => simp [charListLE] at hbc
      | cons c cs =>
        simp only [charListLE, Bool.or_eq_true, Bool.and_eq_true,
          decide_eq_true_eq, beq_iff_eq] at hab hbc ⊢
        rcases hab with hab | ⟨hab₁, hab₂⟩
        · rcases hbc with hbc | ⟨hbc₁, _⟩
          · left; omega
          · left; omega
        · rcases hbc with hbc | ⟨hbc₁, hbc₂⟩
          · left; omega
          · right; exact ⟨by omega, ih bs cs hab₂ hbc₂⟩

/-- `charListLE` is antisymmetric. -/
theorem charListLE_antisymm : ∀ as bs : List Char,
    charListLE as bs = true → charListLE bs as = true → as = bs := by
  intro as
  induction as with
  | nil =>
    intro bs _ hba
    cases bs with
    | nil => rfl
    | cons b bs => simp [charListLE] at hba
  | cons a as ih =>
    intro bs hab hba
    cases bs with
    | nil => simp [charListLE] at hab
    | cons b bs =>
      simp only [charListLE, Bool.or_eq_true, Bool.and_eq_true,
        decide_eq_true_eq, beq_iff_eq] at hab hba
      rcases hab with hab | ⟨hab₁, hab₂⟩
      · rcases hba with hba | ⟨hba₁, _⟩
        · omega
        · omega
      · rcases hba with hba | ⟨hba₁, hba₂⟩
        · omega
        · have : a = b := char_eq_of_toNat_eq hab₁
          rw [this, ih bs hab₂ hba₂]

/-- `strLE` is antisymmetric. -/
theorem strLE_antisymm {x y : String} (hxy : strLE x y = true)
    (hyx : strLE y x = true) : x = y :=
  String.ext (charListLE_antisymm x.data y.data hxy hyx)

instance : IsTotal (String × String) keyRel :=
  ⟨fun a b => charListLE_total a.1.data b.1.data⟩

instance : IsTrans (String × String) keyRel :=
  ⟨fun a b c hab hbc => charListLE_trans a.1.data b.1.data c.1.data hab hbc⟩

/-- Sorting by key is a canonical form: two parameter maps holding the same
key/value pairs (in any insertion order), with no duplicate keys, sort to the
same list. -/
theorem sortParams_eq_of_perm (p₁ p₂ : Params)
    (hnd : (p₁.map Prod.fst).Nodup) (hperm : p₁.Perm p₂) :
    sortParams p₁ = sortParams p₂ := by
  have hperm₁ := List.perm_insertionSort keyRel p₁
  have hperm₂ := List.perm_insertionSort keyRel p₂
  have hkeys₁ : ((List.insertionSort keyRel p₁).map Prod.fst).Nodup :=
    ((hperm₁.map Prod.fst).nodup_iff).mpr hnd
  have hkeys₂ : ((List.insertionSort keyRel p₂).map Prod.fst).Nodup :=
    ((hperm₂.map Prod.fst).nodup_iff).mpr
      (((hperm.map Prod.fst).nodup_iff).mp hnd)
  have hne₁ : (List.insertionSort keyRel p₁).Pairwise
      (fun a b : String × String => a.1 ≠ b.1) :=
    List.pairwise_map.mp hkeys₁
  have hne₂ : (List.insertionSort keyRel p₂).Pairwise
      (fun a b : String × String => a.1 ≠ b.1) :=
    List.pairwise_map.mp hkeys₂
  have hsrt₁ : (List.insertionSort keyRel p₁).Pairwise
      (fun a b : String × String => keyRel a b ∧ a.1 ≠ b.1) :=
    (List.sorted_insertionSort keyRel p₁).and hne₁
  have hsrt₂ : (List.insertionSort keyRel p₂).Pairwise
      (fun a b : String × String => keyRel a b ∧ a.1 ≠ b.1) :=
    (List.sorted_insertionSort keyRel p₂).and hne₂
  haveI : IsAntisymm (String × String)
      (fun a b : String × String => keyRel a b ∧ a.1 ≠ b.1) :=
    ⟨fun a b h h' => absurd (strLE_antisymm h.1 h'.1) h.2⟩
  exact List.eq_of_perm_of_sorted
    (hperm₁.trans (hperm.trans hperm₂.symm)) hsrt₁ hsrt₂

/-- Replacing the entry at key `k` and then filtering key `k` out is the same
as filtering key `k` out directly. -/
theorem filter_map_replace {α : Type} (s : List (String × α)) (k : String) (v : α) :
    List.filter (fun kv => !(kv.1 == k))
        (s.map (fun kv => if kv.1 == k then (k, v) else kv))
      = List.filter (fun kv => !(kv.1 == k)) s := by
  induction s with
  | nil => rfl
  | cons kv rest ih =>
    by_cases hk : kv.1 = k
    · simp [hk]
      simpa using ih
    · simp [hk]
      simpa using ih

/-- Filtering the credential out of a parameter map is unaffected by having
first attached (or overwritten) the credential entry. -/
theorem filter_assocSet_self {α : Type} (s : List (String × α)) (k : String) (v : α) :
    (assocSet s k v).filter (fun kv => !(kv.1 == k))
      = s.filter (fun kv => !(kv.1 == k)) := by
  unfold assocSet
  by_cases hany : s.any (fun kv => kv.1 == k)
  · simp only [hany, if_true]
    exact filter_map_replace s k v
  · simp only [hany, if_false, List.filter_append]
    simp [List.filter]

/-- The freshly assigned entry is a member of the dict afterwards. -/
theorem mem_assocSet_self {α : Type} (s : List (String × α)) (k : String) (v : α) :
    (k, v) ∈ assocSet s k v := by
  unfold assocSet
  by_cases hany : s.any (fun kv => kv.1 == k)
  · simp only [hany, if_true]
    rcases List.any_eq_true.mp hany with ⟨kv, hmem, hkv⟩
    exact List.mem_map.mpr ⟨kv, hmem, by simp [hkv]⟩
  · simp [hany]

/-- Lookup after in-place replacement of the entry at key `k`, provided some
entry with key `k` exists. -/
theorem lookupVol_map_replace (s : List (Params × VolatileEntry)) (k : Params)
    (v : VolatileEntry) (hany : s.any (fun kv => kv.1 == k) = true) :
    lookupVol (s.map (fun kv => if kv.1 == k then (k, v) else kv)) k = some v := by
  induction s with
  | nil => simp at hany
  | cons kv rest ih =>
    by_cases hk : kv.1 = k
    · simp [lookupVol, hk]
    · have hrest : rest.any (fun kv => kv.1 == k) = true := by
        simp only [List.any_cons, Bool.or_eq_true, beq_iff_eq] at hany
        rcases hany with h | h
        · exact absurd h hk
        · simpa [List.any_eq_true] using h
      simp only [List.map_cons, if_neg (show ¬((kv.1 == k) = true) by simpa using hk)]
      simp only [lookupVol]
      rw [if_neg hk]
      exact ih hrest

/-- Lookup in a dict extended at the end with a fresh key finds the new entry,
provided no earlier entry has that key. -/
theorem lookupVol_append_fresh (s : List (Params × VolatileEntry)) (k : Params)
    (v : VolatileEntry) (hnone : ∀ kv ∈ s, kv.1 ≠ k) :
    lookupVol (s ++ [(k, v)]) k = some v := by
  induction s with
  | nil => simp [lookupVol]
  | cons kv rest ih =>
    simp only [List.cons_append, lookupVol]
    rw [if_neg (hnone kv (List.mem_cons_self kv rest))]
    exact ih (fun kv' h => hnone kv' (List.mem_cons_of_mem kv h))

/-- Looking up the key just assigned returns the assigned value. -/
theorem lookupVol_volSet_self (s : VolatileStore) (k : Params) (v : VolatileEntry) :
    lookupVol (volSet s k v) k = some v := by
  unfold volSet
  by_cases hany : s.any (fun kv => kv.1 == k)
  · simp only [hany, if_true]
    exact lookupVol_map_replace s k v hany
  · simp only [hany, if_false]
    apply lookupVol_append_fresh
    intro kv hmem hkv
    exact hany (List.any_eq_true.mpr ⟨kv, hmem, by simp [hkv]⟩)

/-- Looking up the String-keyed entry just upserted returns the new value. -/
theorem lookupAssoc_assocSet_self {α : Type} (s : List (String × α)) (k : String) (v : α) :
    lookupAssoc (assocSet s k v) k = some v := by
  unfold assocSet
  by_cases hany : s.any (fun kv => kv.1 == k)
  · simp only [hany, if_true]
    induction s with
    | nil => simp at hany
    | cons kv rest ih =>
      by_cases hk : kv.1 = k
      · simp [lookupAssoc, hk]
      · have hrest : rest.any (fun kv => kv.1 == k) = true := by
          simp only [List.any_cons, Bool.or_eq_true, beq_iff_eq] at hany
          rcases hany with h | h
          · exact absurd h hk
          · simpa [List.any_eq_true] using h
        simp only [List.map_cons, if_neg (show ¬((kv.1 == k) = true) by simpa using hk)]
        simp only [lookupAssoc]
        rw [if_neg hk]
        exact ih hrest
  · simp only [hany, if_false]
    have hnone : ∀ kv ∈ s, kv.1 ≠ k := by
      intro kv hmem hkv
      exact hany (List.any_eq_true.mpr ⟨kv, hmem, by simp [hkv]⟩)
    induction s with
    | nil => simp [lookupAssoc]
    | cons kv rest ih =>
      simp only [List.cons_append, lookupAssoc]
      rw [if_neg (hnone kv (List.mem_cons_self kv rest))]
      exact ih (by intro h; exact hany (by simp [List.any_cons] at h ⊢; right; exact h))
        (fun kv' h => hnone kv' (List.mem_cons_of_mem kv h))

/-- The evicted key is gone from the volatile store. -/
theorem lookupVol_volErase_self (s : VolatileStore) (k : Params) :
    lookupVol (volErase s k) k = none := by
  induction s with
  | nil => rfl
  | cons kv rest ih =>
    unfold volErase at ih ⊢
    rw [List.filter_cons]
    by_cases hk : kv.1 = k
    · rw [if_neg (by simp [hk])]
      exact ih
    · rw [if_pos (by simp [hk])]
      simp only [lookupVol]
      rw [if_neg hk]
      exact ih

/-- After a volatile read that missed, no entry remains under the key; the
store is unchanged when the key was absent, and equals the eviction of the
expired entry otherwise. -/
theorem simpleCacheGet_miss_spec (ttl : Int) (store : VolatileStore) (now : Int)
    (key : Params) (hvol : (simpleCacheGet ttl store now key).1 = none) :
    lookupVol (simpleCacheGet ttl store now key).2 key = none
    ∧ (lookupVol store key = none → (simpleCacheGet ttl store now key).2 = store)
    ∧ (∀ e, lookupVol store key = some e →
        (simpleCacheGet ttl store now key).2 = volErase store key) := by
  rcases h : lookupVol store key with _ | e
  · simp [simpleCacheGet, h]
  · simp only [simpleCacheGet, h] at hvol ⊢
    by_cases hx : now - e.ts > ttl
    · rw [if_pos hx] at hvol ⊢
      exact ⟨lookupVol_volErase_self store key,
        fun hnone => absurd hnone (by simp),
        fun _ _ => rfl⟩
    · rw [if_neg hx] at hvol
      simp at hvol

/-- A fresh volatile entry is returned as a hit without touching the store. -/
theorem simpleCacheGet_hit (ttl : Int) (store : VolatileStore) (now : Int)
    (key : Params) (e : VolatileEntry) (h : lookupVol store key = some e)
    (hx : ¬(now - e.ts > ttl)) :
    simpleCacheGet ttl store now key = (some e.value, store) := by
  simp only [simpleCacheGet, h]
  rw [if_neg hx]

/-- When both caches miss, `_make_request` proceeds to the network branch. -/
theorem makeRequest_network_eq (st : ClientState) (env : Env) (params₀ : Params)
    (ttl : Option Int)
    (hvol : (simpleCacheGet st.volatileTTL st.volatile env.nowMono
        (volatileKey st params₀)).1 = none)
    (hper : sqliteGet st.persistent env.nowWall (requestDbKey st params₀) false = none) :
    makeRequest st env params₀ ttl =
      match classify env.outcome with
      | .failure e =>
          ⟨.error e,
            (simpleCacheGet st.volatileTTL st.volatile env.nowMono (volatileKey st params₀)).2,
            st.persistent, true⟩
      | .success data =>
        let vol' := simpleCacheSet
          (simpleCacheGet st.volatileTTL st.volatile env.nowMono (volatileKey st params₀)).2
          (volatileKey st params₀) data env.nowMono
        match ttl with
        | none => ⟨.ok data, vol', st.persistent, true⟩
        | some t =>
          if env.saveOk then
            ⟨.ok data, vol',
              sqliteSave st.persistent env.nowWall (requestDbKey st params₀)
                data (some t) (some (requestFunction st params₀)) st.defaultTTL,
              true⟩
          else
            ⟨.error .storage, vol', st.persistent, true⟩ := by
  simp only [makeRequest, hvol, hper]

/-- When the volatile cache misses and the persistent cache hits fresh,
`_make_request` returns the stored payload without a network call. -/
theorem makeRequest_persistent_hit_eq (st : ClientState) (env : Env) (params₀ : Params)
    (ttl : Option Int) (hit : CacheHit)
    (hvol : (simpleCacheGet st.volatileTTL st.volatile env.nowMono
        (volatileKey st params₀)).1 = none)
    (hper : sqliteGet st.persistent env.nowWall (requestDbKey st params₀) false = some hit) :
    makeRequest st env params₀ ttl =
      ⟨.ok hit.payload,
        (simpleCacheGet st.volatileTTL st.volatile env.nowMono (volatileKey st params₀)).2,
        st.persistent, false⟩ := by
  simp only [makeRequest, hvol, hper]

/-- Replacement at a key that occurs nowhere in the dict is the identity. -/
theorem map_replace_of_not_any {α : Type} (s : List (String × α)) (k : String) (v : α)
    (hany : ¬(s.any (fun kv => kv.1 == k) = true)) :
    s.map (fun kv => if kv.1 == k then (k, v) else kv) = s := by
  induction s with
  | nil => rfl
  | cons kv rest ih =>
    simp only [List.any_cons, Bool.or_eq_true] at hany
    push_neg at hany
    rcases hany with ⟨h1, h2⟩
    simp only [List.map_cons, if_neg h1, ih h2]

/-- Re-assigning the same key overwrites the previous assignment: attaching
the client credential erases any caller-supplied value for that key. -/
theorem assocSet_assocSet {α : Type} (s : List (String × α)) (k : String) (y v : α) :
    assocSet (assocSet s k y) k v = assocSet s k v := by
  unfold assocSet
  by_cases hany : s.any (fun kv => kv.1 == k)
  · have hany' : (s.map (fun kv => if kv.1 == k then (k, y) else kv)).any
        (fun kv => kv.1 == k) = true := by
      rcases List.any_eq_true.mp hany with ⟨kv, hmem, hkv⟩
      exact List.any_eq_true.mpr
        ⟨(k, y), List.mem_map.mpr ⟨kv, hmem, by simp [hkv]⟩, by simp⟩
    simp only [hany, hany', if_true, List.map_map]
    apply List.map_congr_left
    intro kv _
    by_cases hk : kv.1 = k
    · simp [hk]
    · simp [hk]
  · have hany' : (s ++ [(k, y)]).any (fun kv => kv.1 == k) = true := by
      simp
    simp only [if_neg hany]
    rw [if_pos hany', List.map_append, map_replace_of_not_any s k v hany]
    simp

/-- Claim C9: the persistent cache key is invariant under reordering of the
argument map — for maps with the same key/value pairs, unique keys, and no
credential entry, the derived key strings coincide. -/
theorem claim_C9_key_order_invariance (function : String) (p₁ p₂ : Params)
    (hnd : (p₁.map Prod.fst).Nodup)
    (hnoapi : "apikey" ∉ p₁.map Prod.fst)
    (hperm : p₁.Perm p₂) :
    buildCacheKey function p₁ = buildCacheKey function p₂ := by
  unfold buildCacheKey
  have hsub : ((p₁.filter (fun kv => !(kv.1 == "apikey"))).map Prod.fst).Sublist
      (p₁.map Prod.fst) := (List.filter_sublist p₁).map Prod.fst
  have : sortParams (p₁.filter (fun kv => !(kv.1 == "apikey")))
      = sortParams (p₂.filter (fun kv => !(kv.1 == "apikey"))) :=
    sortParams_eq_of_perm _ _ (hnd.sublist hsub) (hperm.filter _)
  rw [this]

/-- Claim C9 witness: two insertion orders of the same two-argument
descriptor produce the same key string. -/
theorem claim_C9_key_order_invariance_witness :
    buildCacheKey "GLOBAL_QUOTE" [("function", "GLOBAL_QUOTE"), ("symbol", "IBM")]
      = buildCacheKey "GLOBAL_QUOTE" [("symbol", "IBM"), ("function", "GLOBAL_QUOTE")] :=
  claim_C9_key_order_invariance "GLOBAL_QUOTE"
    [("function", "GLOBAL_QUOTE"), ("symbol", "IBM")]
    [("symbol", "IBM"), ("function", "GLOBAL_QUOTE")]
    (by decide) (by decide) (by decide)

/-- Claim C1 counterexample: with credential value `"SECRET"`, the key under
which `_make_request` reads and writes the volatile cache contains the
`("apikey", "SECRET")` pair, so the credential is part of that cache key. -/
theorem claim_C1_counterexample :
    ("apikey", "SECRET") ∈
      volatileKey ⟨"SECRET", 120, [], [], 600⟩
        [("function", "GLOBAL_QUOTE"), ("symbol", "IBM")] := by
  decide

/-- Claim C1 amended: the persistent cache key excludes the credential — it is
unchanged by attaching the `apikey` entry, and hence the same whether or not
the parameter map carried one — and both tiers' keys are invariant to a
caller-supplied `apikey` value (it is overwritten before key derivation); the
volatile cache key, however, is the sorted full parameter tuple and does
contain the `(apikey, credential)` pair. -/
theorem claim_C1_amended (st : ClientState) (params₀ : Params) (f y : String) :
    buildCacheKey f (requestParams st params₀) = buildCacheKey f params₀
    ∧ volatileKey st (assocSet params₀ "apikey" y) = volatileKey st params₀
    ∧ ("apikey", st.apiKey) ∈ volatileKey st params₀ := by
  refine ⟨?_, ?_, ?_⟩
  · unfold buildCacheKey requestParams
    rw [filter_assocSet_self]
  · unfold volatileKey requestParams
    rw [assocSet_assocSet]
  · unfold volatileKey sortParams requestParams
    exact (List.perm_insertionSort keyRel _).mem_iff.mpr
      (mem_assocSet_self params₀ "apikey" st.apiKey)

/-- Claim C2 counterexample: a 2xx response with body `\x7b\x7d` is classified as
the generic failure, but its message is the source's "Empty response from
Alpha Vantage.", not the "Empty response from upstream." the claim demands. -/
theorem claim_C2_counterexample :
    classify (.httpResponse 200 (.json []))
        ≠ .failure (.api "Empty response from upstream.")
    ∧ classify (.httpResponse 200 (.json []))
        = .failure (.api "Empty response from Alpha Vantage.") := by
  constructor
  · decide
  · rfl

/-- Claim C2 amended: a fetch that reaches the network (both caches miss) and
receives a 2xx response with an empty body fails with the generic
`APIError("Empty response from Alpha Vantage.")`; the persistent cache is
untouched and no volatile entry exists under the descriptor afterwards. -/
theorem claim_C2_amended (st : ClientState) (env : Env) (params₀ : Params)
    (ttl : Option Int) (status : Nat)
    (hs : 200 ≤ status) (hs' : status < 300)
    (hbody : env.outcome = .httpResponse status (.json []))
    (hvol : (simpleCacheGet st.volatileTTL st.volatile env.nowMono
        (volatileKey st params₀)).1 = none)
    (hper : sqliteGet st.persistent env.nowWall (requestDbKey st params₀) false = none) :
    (makeRequest st env params₀ ttl).result
        = .error (.api "Empty response from Alpha Vantage.")
    ∧ (makeRequest st env params₀ ttl).persistent = st.persistent
    ∧ lookupVol (makeRequest st env params₀ ttl).volatile (volatileKey st params₀) = none := by
  have hclass : classify env.outcome
      = .failure (.api "Empty response from Alpha Vantage.") := by
    rw [hbody]
    simp only [classify]
    rw [if_neg (show ¬(status < 200 ∨ 300 ≤ status) by omega)]
    rfl
  rw [makeRequest_network_eq st env params₀ ttl hvol hper, hclass]
  exact ⟨rfl, rfl, (simpleCacheGet_miss_spec _ _ _ _ hvol).1⟩

/-- Claim C2 amended witness: concrete empty-cache client, 200 response with
empty body. -/
theorem claim_C2_amended_witness :
    (makeRequest ⟨"K", 120, [], [], 600⟩
        ⟨.httpResponse 200 (.json []), true, 0, 0⟩
        [("function", "GLOBAL_QUOTE"), ("symbol", "IBM")] (some 600)).result
      = .error (.api "Empty response from Alpha Vantage.") :=
  (claim_C2_amended ⟨"K", 120, [], [], 600⟩
    ⟨.httpResponse 200 (.json []), true, 0, 0⟩
    [("function", "GLOBAL_QUOTE"), ("symbol", "IBM")] (some 600) 200
    (by decide) (by decide) rfl (by decide) (by decide)).1

/-- Claim C3 counterexample: a 2xx response whose body fails to decode raises
the JSON decoding error, which is outside the typed failure taxonomy — and no
`MalformedResponse` classification exists in the code. -/
theorem claim_C3_counterexample :
    classify (.httpResponse 200 (.malformed "not json"))
        = .failure (.jsonDecode "not json")
    ∧ inTaxonomy (classify (.httpResponse 200 (.malformed "not json"))) = false := by
  exact ⟨rfl, rfl⟩

/-- Claim C3 amended: classification is total over every transport failure,
every HTTP status, and every 2xx body that decodes as JSON, always producing a
success payload or one of the five typed failures RateLimited, InvalidInput,
AuthFailed, UpstreamUnavailable, Generic; no `MalformedResponse` variant
exists, and a 2xx body that is not well-formed JSON escapes the taxonomy as an
unclassified decode error. -/
theorem claim_C3_amended (o : UpstreamOutcome) (h : decodedOk o) :
    inTaxonomy (classify o) = true := by
  cases o with
  | transportError d => rfl
  | httpResponse s b =>
    by_cases hs : s < 200 ∨ 300 ≤ s
    · simp only [classify]
      rw [if_pos hs]
      by_cases h1 : s = 401 ∨ s = 403
      · rw [if_pos h1]; rfl
      · rw [if_neg h1]
        by_cases h2 : s = 429 ∨ s = 500 ∨ s = 502 ∨ s = 503 ∨ s = 504
        · rw [if_pos h2]; rfl
        · rw [if_neg h2]; rfl
    · simp only [classify]
      rw [if_neg hs]
      cases b with
      | malformed raw => exact absurd h hs
      | json fields =>
        rcases h1 : lookupAssoc fields "Note" with _ | note
        · rcases h2 : lookupAssoc fields "Error Message" with _ | msg
          · rcases h3 : lookupAssoc fields "Information" with _ | info
            · by_cases he : fields.isEmpty
              · simp [h1, h2, h3, he, inTaxonomy, isTypedFailure]
              · simp [h1, h2, h3, he, inTaxonomy, isTypedFailure]
            · simp [h1, h2, h3, inTaxonomy, isTypedFailure]
          · simp [h1, h2, inTaxonomy, isTypedFailure]
        · simp [h1, inTaxonomy, isTypedFailure]

/-- Claim C3 amended witness: a transport failure is classified inside the
taxonomy. -/
theorem claim_C3_amended_witness :
    inTaxonomy (classify (.transportError "connection refused")) = true :=
  claim_C3_amended (.transportError "connection refused") trivial

/-- Claim C4: for every 2xx body the marker checks run in the order
rate-limit (`"Note"`), error-message (`"Error Message"`), informational
(`"Information"`), empty — first match wins: a `"Note"` field forces
`RateLimitError` with that field's text even when the other markers are
present; without `"Note"`, an `"Error Message"` field forces
`InvalidSymbolError`; with only `"Information"`, the generic `APIError`
carries that field's text. -/
theorem claim_C4_marker_precedence (status : Nat) (fields : JsonObj)
    (hs : 200 ≤ status) (hs' : status < 300) :
    (∀ note, lookupAssoc fields "Note" = some note →
        classify (.httpResponse status (.json fields)) = .failure (.rateLimit note))
    ∧ (lookupAssoc fields "Note" = none →
        ∀ msg, lookupAssoc fields "Error Message" = some msg →
          classify (.httpResponse status (.json fields)) = .failure (.invalidSymbol msg))
    ∧ (lookupAssoc fields "Note" = none →
        lookupAssoc fields "Error Message" = none →
        ∀ info, lookupAssoc fields "Information" = some info →
          classify (.httpResponse status (.json fields)) = .failure (.api info)) := by
  have hns : ¬(status < 200 ∨ 300 ≤ status) := by omega
  refine ⟨?_, ?_, ?_⟩
  · intro note h1
    simp only [classify]
    rw [if_neg hns]
    simp [h1]
  · intro h1 msg h2
    simp only [classify]
    rw [if_neg hns]
    simp [h1, h2]
  · intro h1 h2 info h3
    simp only [classify]
    rw [if_neg hns]
    simp [h1, h2, h3]

/-- Claim C4 witness: concrete bodies carrying several markers at once are
classified by the first marker in the order. -/
theorem claim_C4_marker_precedence_witness :
    classify (.httpResponse 200
        (.json [("Note", "n"), ("Error Message", "m"), ("Information", "i")]))
      = .failure (.rateLimit "n")
    ∧ classify (.httpResponse 200 (.json [("Error Message", "m"), ("Information", "i")]))
      = .failure (.invalidSymbol "m")
    ∧ classify (.httpResponse 200 (.json [("Information", "i")]))
      = .failure (.api "i") :=
  ⟨(claim_C4_marker_precedence 200 [("Note", "n"), ("Error Message", "m"), ("Information", "i")]
      (by decide) (by decide)).1 "n" (by decide),
   (claim_C4_marker_precedence 200 [("Error Message", "m"), ("Information", "i")]
      (by decide) (by decide)).2.1 (by decide) "m" (by decide),
   (claim_C4_marker_precedence 200 [("Information", "i")]
      (by decide) (by decide)).2.2 (by decide) (by decide) "i" (by decide)⟩

/-- Claim C5: statuses 401/403 give the authentication failure; statuses 429,
500, 502, 503, 504 give the upstream failure; any other non-2xx status gives
the generic failure whose message embeds the status code; a transport failure
gives the generic failure with message "Network error: <detail>". -/
theorem claim_C5_status_mapping (status : Nat) (body : ResponseBody) (detail : String) :
    ((status = 401 ∨ status = 403) →
      classify (.httpResponse status body)
        = .failure (.auth "Authentication failed with Alpha Vantage."))
    ∧ ((status = 429 ∨ status = 500 ∨ status = 502 ∨ status = 503 ∨ status = 504) →
      classify (.httpResponse status body)
        = .failure (.upstream
            ("Upstream error from Alpha Vantage (status " ++ toString status ++ ").")))
    ∧ ((status < 200 ∨ 300 ≤ status) →
        ¬(status = 401 ∨ status = 403) →
        ¬(status = 429 ∨ status = 500 ∨ status = 502 ∨ status = 503 ∨ status = 504) →
      classify (.httpResponse status body)
        = .failure (.api ("API request failed with status code " ++ toString status))
      ∧ ∃ pre, "API request failed with status code " ++ toString status
          = pre ++ toString status)
    ∧ classify (.transportError detail)
        = .failure (.api ("Network error: " ++ detail)) := by
  refine ⟨?_, ?_, ?_, rfl⟩
  · intro h
    simp only [classify]
    rw [if_pos (by omega), if_pos h]
  · intro h
    simp only [classify]
    rw [if_pos (by omega), if_neg (by omega), if_pos h]
  · intro hns h1 h2
    constructor
    · simp only [classify]
      rw [if_pos hns, if_neg h1, if_neg h2]
    · exact ⟨"API request failed with status code ", rfl⟩

/-- Claim C5 witness: concrete statuses from each class, and a concrete
transport failure. -/
theorem claim_C5_status_mapping_witness :
    classify (.httpResponse 401 (.json []))
      = .failure (.auth "Authentication failed with Alpha Vantage.")
    ∧ classify (.httpResponse 503 (.json []))
      = .failure (.upstream ("Upstream error from Alpha Vantage (status " ++ toString 503 ++ ")."))
    ∧ classify (.httpResponse 404 (.json []))
      = .failure (.api ("API request failed with status code " ++ toString 404))
    ∧ classify (.transportError "timeout")
      = .failure (.api ("Network error: " ++ "timeout")) :=
  ⟨(claim_C5_status_mapping 401 (.json []) "timeout").1 (Or.inl rfl),
   (claim_C5_status_mapping 503 (.json []) "timeout").2.1 (by omega),
   ((claim_C5_status_mapping 404 (.json []) "timeout").2.2.1
      (by omega) (by omega) (by omega)).1,
   (claim_C5_status_mapping 404 (.json []) "timeout").2.2.2⟩

/-- Claim C6: `SQLiteCache.get` returns absent when no row exists; absent when
the row is stale (read-time now − fetched_at > ttl_seconds) and `allow_stale`
is false; otherwise the row with its read-time-computed `stale` flag. After
`save(k, v, ttl_seconds=600)`, a fresh-only `get` within 600 seconds returns
payload v with stale = false; 601+ seconds later the fresh-only `get` is
absent while `get` with `allow_stale` returns payload v with stale = true. -/
theorem claim_C6_persistent_cache (store : PersistentStore) (k : String)
    (now now' : Int) (v : JsonObj) (allow : Bool) (ep : Option String) (dflt : Int) :
    (lookupAssoc store k = none → sqliteGet store now k allow = none)
    ∧ (∀ row, lookupAssoc store k = some row →
        now - row.fetched_at > row.ttl_seconds → allow = false →
        sqliteGet store now k allow = none)
    ∧ (∀ row, lookupAssoc store k = some row →
        (¬(now - row.fetched_at > row.ttl_seconds) ∨ allow = true) →
        sqliteGet store now k allow
          = some ⟨row.payload, row.fetched_at, row.ttl_seconds,
              decide (now - row.fetched_at > row.ttl_seconds)⟩)
    ∧ (0 ≤ now' - now → now' - now ≤ 600 →
        sqliteGet (sqliteSave store now k v (some 600) ep dflt) now' k false
          = some ⟨v, now, 600, false⟩)
    ∧ (now' - now ≥ 601 →
        sqliteGet (sqliteSave store now k v (some 600) ep dflt) now' k false = none
        ∧ sqliteGet (sqliteSave store now k v (some 600) ep dflt) now' k true
          = some ⟨v, now, 600, true⟩) := by
  refine ⟨?_, ?_, ?_, ?_, ?_⟩
  · intro h
    simp [sqliteGet, h]
  · intro row h hstale hallow
    subst hallow
    simp [sqliteGet, h, hstale]
  · intro row h hc
    rcases hc with hfresh | hallow
    · simp [sqliteGet, h, hfresh]
    · subst hallow
      simp [sqliteGet, h]
  · intro h0 h6
    have hrow : lookupAssoc (sqliteSave store now k v (some 600) ep dflt) k
        = some ⟨ep, v, now, 600⟩ := lookupAssoc_assocSet_self store k _
    have hns : ¬(now' - now > 600) := by omega
    simp [sqliteGet, hrow, hns]
  · intro h
    have hrow : lookupAssoc (sqliteSave store now k v (some 600) ep dflt) k
        = some ⟨ep, v, now, 600⟩ := lookupAssoc_assocSet_self store k _
    have hst : now' - now > 600 := by omega
    exact ⟨by simp [sqliteGet, hrow, hst], by simp [sqliteGet, hrow, hst]⟩

/-- Claim C6 witness: a concrete save-then-get round trip at the TTL boundary
and just past it. -/
theorem claim_C6_persistent_cache_witness :
    sqliteGet (sqliteSave [] 0 "k" [("a", "1")] (some 600) none 600) 600 "k" false
      = some ⟨[("a", "1")], 0, 600, false⟩
    ∧ sqliteGet (sqliteSave [] 0 "k" [("a", "1")] (some 600) none 600) 601 "k" false = none
    ∧ sqliteGet (sqliteSave [] 0 "k" [("a", "1")] (some 600) none 600) 601 "k" true
      = some ⟨[("a", "1")], 0, 600, true⟩ :=
  ⟨(claim_C6_persistent_cache [] "k" 0 600 [("a", "1")] false none 600).2.2.2.1
      (by decide) (by decide),
   ((claim_C6_persistent_cache [] "k" 0 601 [("a", "1")] false none 600).2.2.2.2
      (by decide)).1,
   ((claim_C6_persistent_cache [] "k" 0 601 [("a", "1")] true none 600).2.2.2.2
      (by decide)).2⟩

/-- Claim C7 counterexample: with an expired volatile entry for the descriptor
and a fresh persistent row, the fetch does return the stored payload without a
network call — but the volatile cache state is changed (the expired entry is
evicted by the read), contradicting "the volatile cache state is left
unchanged". -/
theorem claim_C7_counterexample :
    (makeRequest
        ⟨"SECRET", 120,
          [(volatileKey ⟨"SECRET", 120, [], [], 600⟩
              [("function", "GLOBAL_QUOTE"), ("symbol", "IBM")],
            ⟨[("old", "1")], 0⟩)],
          [(requestDbKey ⟨"SECRET", 120, [], [], 600⟩
              [("function", "GLOBAL_QUOTE"), ("symbol", "IBM")],
            ⟨some "GLOBAL_QUOTE", [("price", "42")], 1000, 600⟩)],
          600⟩
        ⟨.transportError "never reached", true, 1000, 1000⟩
        [("function", "GLOBAL_QUOTE"), ("symbol", "IBM")] (some 600)).result
      = .ok [("price", "42")]
    ∧ (makeRequest
        ⟨"SECRET", 120,
          [(volatileKey ⟨"SECRET", 120, [], [], 600⟩
              [("function", "GLOBAL_QUOTE"), ("symbol", "IBM")],
            ⟨[("old", "1")], 0⟩)],
          [(requestDbKey ⟨"SECRET", 120, [], [], 600⟩
              [("function", "GLOBAL_QUOTE"), ("symbol", "IBM")],
            ⟨some "GLOBAL_QUOTE", [("price", "42")], 1000, 600⟩)],
          600⟩
        ⟨.transportError "never reached", true, 1000, 1000⟩
        [("function", "GLOBAL_QUOTE"), ("symbol", "IBM")] (some 600)).networkCalled
      = false
    ∧ (makeRequest
        ⟨"SECRET", 120,
          [(volatileKey ⟨"SECRET", 120, [], [], 600⟩
              [("function", "GLOBAL_QUOTE"), ("symbol", "IBM")],
            ⟨[("old", "1")], 0⟩)],
          [(requestDbKey ⟨"SECRET", 120, [], [], 600⟩
              [("function", "GLOBAL_QUOTE"), ("symbol", "IBM")],
            ⟨some "GLOBAL_QUOTE", [("price", "42")], 1000, 600⟩)],
          600⟩
        ⟨.transportError "never reached", true, 1000, 1000⟩
        [("function", "GLOBAL_QUOTE"), ("symbol", "IBM")] (some 600)).volatile
      ≠ [(volatileKey ⟨"SECRET", 120, [], [], 600⟩
              [("function", "GLOBAL_QUOTE"), ("symbol", "IBM")],
            ⟨[("old", "1")], 0⟩)] := by
  refine ⟨?_, ?_, ?_⟩
  · decide
  · decide
  · decide

/-- Claim C7 amended: on a volatile miss with a fresh persistent hit, the
fetch returns the stored payload with no network call, the persistent cache is
untouched, and the volatile cache is not refreshed — it is unchanged when it
held no entry for the descriptor, and has the (expired) entry evicted by the
lookup when it held one. -/
theorem claim_C7_amended (st : ClientState) (env : Env) (params₀ : Params)
    (ttl : Option Int) (hit : CacheHit)
    (hvol : (simpleCacheGet st.volatileTTL st.volatile env.nowMono
        (volatileKey st params₀)).1 = none)
    (hper : sqliteGet st.persistent env.nowWall (requestDbKey st params₀) false
        = some hit) :
    (makeRequest st env params₀ ttl).result = .ok hit.payload
    ∧ (makeRequest st env params₀ ttl).networkCalled = false
    ∧ (makeRequest st env params₀ ttl).persistent = st.persistent
    ∧ lookupVol (makeRequest st env params₀ ttl).volatile (volatileKey st params₀) = none
    ∧ (lookupVol st.volatile (volatileKey st params₀) = none →
        (makeRequest st env params₀ ttl).volatile = st.volatile)
    ∧ (∀ e, lookupVol st.volatile (volatileKey st params₀) = some e →
        (makeRequest st env params₀ ttl).volatile
          = volErase st.volatile (volatileKey st params₀)) := by
  rw [makeRequest_persistent_hit_eq st env params₀ ttl hit hvol hper]
  rcases simpleCacheGet_miss_spec _ _ _ _ hvol with ⟨h1, h2, h3⟩
  exact ⟨rfl, rfl, rfl, h1, h2, h3⟩

/-- Claim C7 amended witness: empty volatile cache, fresh persistent row. -/
theorem claim_C7_amended_witness :
    (makeRequest
        ⟨"K", 120, [],
          [(requestDbKey ⟨"K", 120, [], [], 600⟩ [("function", "OVERVIEW"), ("symbol", "IBM")],
            ⟨some "OVERVIEW", [("Name", "IBM")], 0, 600⟩)],
          600⟩
        ⟨.transportError "never reached", true, 0, 0⟩
        [("function", "OVERVIEW"), ("symbol", "IBM")] (some 86400)).result
      = .ok [("Name", "IBM")]
    ∧ (makeRequest
        ⟨"K", 120, [],
          [(requestDbKey ⟨"K", 120, [], [], 600⟩ [("function", "OVERVIEW"), ("symbol", "IBM")],
            ⟨some "OVERVIEW", [("Name", "IBM")], 0, 600⟩)],
          600⟩
        ⟨.transportError "never reached", true, 0, 0⟩
        [("function", "OVERVIEW"), ("symbol", "IBM")] (some 86400)).networkCalled = false :=
  ⟨((claim_C7_amended _ _ _ _ ⟨[("Name", "IBM")], 0, 600, false⟩
      (by decide) (by decide)).1),
   ((claim_C7_amended _ _ _ _ ⟨[("Name", "IBM")], 0, 600, false⟩
      (by decide) (by decide)).2.1)⟩

/-- On a fresh volatile hit, `_make_request` returns the cached value at once
without touching anything. -/
theorem makeRequest_volatile_hit_eq (st : ClientState) (env : Env) (params₀ : Params)
    (ttl : Option Int) (e : VolatileEntry)
    (h : lookupVol st.volatile (volatileKey st params₀) = some e)
    (hfresh : ¬(env.nowMono - e.ts > st.volatileTTL)) :
    makeRequest st env params₀ ttl = ⟨.ok e.value, st.volatile, st.persistent, false⟩ := by
  have hget := simpleCacheGet_hit st.volatileTTL st.volatile env.nowMono
    (volatileKey st params₀) e h hfresh
  simp only [makeRequest, hget]

/-- Claim C8 counterexample: a rate-limited fetch leaves the persistent cache
alone and writes nothing, but the volatile cache is not "exactly as it was":
the expired entry for the descriptor is evicted by the initial lookup. -/
theorem claim_C8_counterexample :
    (makeRequest
        ⟨"SECRET", 120,
          [(volatileKey ⟨"SECRET", 120, [], [], 600⟩
              [("function", "GLOBAL_QUOTE"), ("symbol", "IBM")],
            ⟨[("old", "1")], 0⟩)],
          [], 600⟩
        ⟨.httpResponse 200 (.json [("Note", "Too many requests.")]), true, 1000, 1000⟩
        [("function", "GLOBAL_QUOTE"), ("symbol", "IBM")] (some 600)).result
      = .error (.rateLimit "Too many requests.")
    ∧ (makeRequest
        ⟨"SECRET", 120,
          [(volatileKey ⟨"SECRET", 120, [], [], 600⟩
              [("function", "GLOBAL_QUOTE"), ("symbol", "IBM")],
            ⟨[("old", "1")], 0⟩)],
          [], 600⟩
        ⟨.httpResponse 200 (.json [("Note", "Too many requests.")]), true, 1000, 1000⟩
        [("function", "GLOBAL_QUOTE"), ("symbol", "IBM")] (some 600)).volatile
      ≠ [(volatileKey ⟨"SECRET", 120, [], [], 600⟩
              [("function", "GLOBAL_QUOTE"), ("symbol", "IBM")],
            ⟨[("old", "1")], 0⟩)] := by
  refine ⟨?_, ?_⟩
  · decide
  · decide

/-- Claim C8 amended: a fetch whose classification yields one of the typed
failures terminates with that failure; the persistent cache is exactly as
before, nothing is written to either cache (no entry exists for the
descriptor afterwards), and the volatile cache is unchanged except that an
expired entry for the descriptor, if present, was evicted by the lookup. -/
theorem claim_C8_amended (st : ClientState) (env : Env) (params₀ : Params)
    (ttl : Option Int) (e : RequestError)
    (hvol : (simpleCacheGet st.volatileTTL st.volatile env.nowMono
        (volatileKey st params₀)).1 = none)
    (hper : sqliteGet st.persistent env.nowWall (requestDbKey st params₀) false = none)
    (hclass : classify env.outcome = .failure e)
    (htyped : isTypedFailure e = true) :
    (makeRequest st env params₀ ttl).result = .error e
    ∧ (makeRequest st env params₀ ttl).persistent = st.persistent
    ∧ lookupVol (makeRequest st env params₀ ttl).volatile (volatileKey st params₀) = none
    ∧ (lookupVol st.volatile (volatileKey st params₀) = none →
        (makeRequest st env params₀ ttl).volatile = st.volatile)
    ∧ (∀ en, lookupVol st.volatile (volatileKey st params₀) = some en →
        (makeRequest st env params₀ ttl).volatile
          = volErase st.volatile (volatileKey st params₀)) := by
  rw [makeRequest_network_eq st env params₀ ttl hvol hper, hclass]
  rcases simpleCacheGet_miss_spec _ _ _ _ hvol with ⟨h1, h2, h3⟩
  exact ⟨rfl, rfl, h1, h2, h3⟩

/-- Claim C8 amended witness: empty caches, rate-limited response. -/
theorem claim_C8_amended_witness :
    (makeRequest ⟨"K", 120, [], [], 600⟩
        ⟨.httpResponse 200 (.json [("Note", "Too many requests.")]), true, 0, 0⟩
        [("function", "GLOBAL_QUOTE"), ("symbol", "IBM")] (some 600)).result
      = .error (.rateLimit "Too many requests.")
    ∧ (makeRequest ⟨"K", 120, [], [], 600⟩
        ⟨.httpResponse 200 (.json [("Note", "Too many requests.")]), true, 0, 0⟩
        [("function", "GLOBAL_QUOTE"), ("symbol", "IBM")] (some 600)).persistent = [] :=
  ⟨(claim_C8_amended ⟨"K", 120, [], [], 600⟩
      ⟨.httpResponse 200 (.json [("Note", "Too many requests.")]), true, 0, 0⟩
      [("function", "GLOBAL_QUOTE"), ("symbol", "IBM")] (some 600)
      (.rateLimit "Too many requests.") (by decide) (by decide) rfl rfl).1,
   (claim_C8_amended ⟨"K", 120, [], [], 600⟩
      ⟨.httpResponse 200 (.json [("Note", "Too many requests.")]), true, 0, 0⟩
      [("function", "GLOBAL_QUOTE"), ("symbol", "IBM")] (some 600)
      (.rateLimit "Too many requests.") (by decide) (by decide) rfl rfl).2.1⟩

/-- Claim C10: two-tier cache population is not atomic — the volatile write
happens before the persistent save is attempted, so when the save fails the
caller receives that storage exception while the volatile cache already holds
the fetched payload, and a subsequent fetch of the same descriptor within the
volatile TTL returns that payload with no network call. -/
theorem claim_C10_nonatomic_population (st : ClientState) (env env₂ : Env)
    (params₀ : Params) (t : Int) (data : JsonObj)
    (hvol : (simpleCacheGet st.volatileTTL st.volatile env.nowMono
        (volatileKey st params₀)).1 = none)
    (hper : sqliteGet st.persistent env.nowWall (requestDbKey st params₀) false = none)
    (hclass : classify env.outcome = .success data)
    (hsave : env.saveOk = false)
    (hfresh : env₂.nowMono - env.nowMono ≤ st.volatileTTL) :
    (makeRequest st env params₀ (some t)).result = .error .storage
    ∧ (makeRequest st env params₀ (some t)).persistent = st.persistent
    ∧ lookupVol (makeRequest st env params₀ (some t)).volatile (volatileKey st params₀)
        = some ⟨data, env.nowMono⟩
    ∧ (makeRequest
        ⟨st.apiKey, st.volatileTTL, (makeRequest st env params₀ (some t)).volatile,
          (makeRequest st env params₀ (some t)).persistent, st.defaultTTL⟩
        env₂ params₀ (some t)).result = .ok data
    ∧ (makeRequest
        ⟨st.apiKey, st.volatileTTL, (makeRequest st env params₀ (some t)).volatile,
          (makeRequest st env params₀ (some t)).persistent, st.defaultTTL⟩
        env₂ params₀ (some t)).networkCalled = false := by
  have hres : makeRequest st env params₀ (some t)
      = ⟨.error .storage,
          simpleCacheSet
            (simpleCacheGet st.volatileTTL st.volatile env.nowMono (volatileKey st params₀)).2
            (volatileKey st params₀) data env.nowMono,
          st.persistent, true⟩ := by
    rw [makeRequest_network_eq st env params₀ (some t) hvol hper, hclass, hsave]
    rfl
  rw [hres]
  have hlook : lookupVol
      (simpleCacheSet
        (simpleCacheGet st.volatileTTL st.volatile env.nowMono (volatileKey st params₀)).2
        (volatileKey st params₀) data env.nowMono)
      (volatileKey st params₀) = some ⟨data, env.nowMono⟩ :=
    lookupVol_volSet_self _ _ _
  have hhit := makeRequest_volatile_hit_eq
    ⟨st.apiKey, st.volatileTTL,
      simpleCacheSet
        (simpleCacheGet st.volatileTTL st.volatile env.nowMono (volatileKey st params₀)).2
        (volatileKey st params₀) data env.nowMono,
      st.persistent, st.defaultTTL⟩
    env₂ params₀ (some t) ⟨data, env.nowMono⟩ hlook
    (show ¬(env₂.nowMono - env.nowMono > st.volatileTTL) by omega)
  rw [hhit]
  exact ⟨rfl, rfl, hlook, rfl, rfl⟩

/-- Claim C10 witness: empty caches, successful quote body, failing persistent
save, then a second fetch 50 monotonic seconds later. -/
theorem claim_C10_nonatomic_population_witness :
    (makeRequest ⟨"K", 120, [], [], 600⟩
        ⟨.httpResponse 200 (.json [("price", "42")]), false, 0, 0⟩
        [("function", "GLOBAL_QUOTE"), ("symbol", "IBM")] (some 600)).result
      = .error .storage
    ∧ (makeRequest
        ⟨"K", 120,
          (makeRequest ⟨"K", 120, [], [], 600⟩
            ⟨.httpResponse 200 (.json [("price", "42")]), false, 0, 0⟩
            [("function", "GLOBAL_QUOTE"), ("symbol", "IBM")] (some 600)).volatile,
          (makeRequest ⟨"K", 120, [], [], 600⟩
            ⟨.httpResponse 200 (.json [("price", "42")]), false, 0, 0⟩
            [("function", "GLOBAL_QUOTE"), ("symbol", "IBM")] (some 600)).persistent,
          600⟩
        ⟨.transportError "never reached", true, 50, 50⟩
        [("function", "GLOBAL_QUOTE"), ("symbol", "IBM")] (some 600)).result
      = .ok [("price", "42")] :=
  ⟨(claim_C10_nonatomic_population ⟨"K", 120, [], [], 600⟩
      ⟨.httpResponse 200 (.json [("price", "42")]), false, 0, 0⟩
      ⟨.transportError "never reached", true, 50, 50⟩
      [("function", "GLOBAL_QUOTE"), ("symbol", "IBM")] 600 [("price", "42")]
      (by decide) (by decide) rfl rfl (by decide)).1,
   (claim_C10_nonatomic_population ⟨"K", 120, [], [], 600⟩
      ⟨.httpResponse 200 (.json [("price", "42")]), false, 0, 0⟩
      ⟨.transportError "never reached", true, 50, 50⟩
      [("function", "GLOBAL_QUOTE"), ("symbol", "IBM")] 600 [("price", "42")]
      (by decide) (by decide) rfl rfl (by decide)).2.2.2.1⟩
